import Mathlib

/-!
# Lending program — shallow embedding and verification

Embedding of the collateralized-lending program (Anchor program `lending`,
`src/anchor/programs/lending/src/lib.rs`). The on-chain file in the
repository is the dispatch shim: each public instruction forwards to a
`process_*` handler that lives in modules (`instructions`, `state`,
`error`) not present in the repository snapshot. Those handlers are
therefore modelled from the specification (each such definition carries a
doc comment starting `Modelled from the spec:`); the dispatch layer itself
is translated from the source file.

Conventions of the embedding:
* Machine integers (`u64`) are modelled as `Nat`; amounts and shares are
  non-negative by construction.
* Fixed-point ratios (indices, thresholds, LTV, bonus) are scaled integers
  with `scale = 10000` representing `1.0` (basis points).
* Fallible handlers return `Except LendingError σ`; an error result means
  the operation rejected and, per the all-or-nothing transaction model,
  the caller's state is unchanged (no new state is produced).
-/

namespace Lending

/-- Fixed-point scale: `scale` represents the ratio `1.0` (basis points). -/
def scale : Nat := 10000

/-- Seconds per year, the denominator of the per-second interest rate. -/
def secondsPerYear : Nat := 31536000

/-- Ceiling division on naturals: `ceilDiv a b = ⌈a / b⌉` (0 when `b = 0`). -/
def ceilDiv (a b : Nat) : Nat := (a + b - 1) / b

/-- Per-asset bank state (`state::Bank`): aggregate shares, liquidity
indices (scaled fixed-point, `scale` = 1.0), accrual timestamp, and the
risk parameters carried by `init_bank`'s `u64` arguments. -/
structure Bank where
  totalDepositedShares : Nat
  totalBorrowedShares : Nat
  depositIndex : Nat
  borrowIndex : Nat
  lastUpdateTimestamp : Nat
  liquidationThreshold : Nat
  maxLtv : Nat
deriving Repr, DecidableEq

/-- Per-user position (`state::User`): deposit and borrow shares plus the
settlement-account reference (`usdc_address`, modelled as `Nat`). -/
structure User where
  depositShares : Nat
  borrowShares : Nat
  usdcAddress : Nat
deriving Repr, DecidableEq

/-- The program's error kinds (§7 of the spec). -/
inductive LendingError where
  | InvalidParameters
  | AlreadyInitialized
  | NotInitialized
  | InvalidAmount
  | InsufficientShares
  | InsufficientLiquidity
  | OverRepayment
  | HealthCheckFailed
  | PositionHealthy
  | InsufficientCollateral
  | StalePrice
  | ClockError
deriving Repr, DecidableEq

instance {ε α : Type} [DecidableEq ε] [DecidableEq α] :
    DecidableEq (Except ε α) := fun x y => by
  cases x <;> cases y
  case error.error e f => exact decidable_of_iff (e = f) (by simp)
  case ok.ok a b => exact decidable_of_iff (a = b) (by simp)
  case error.ok => exact isFalse (by simp)
  case ok.error => exact isFalse (by simp)

/-- Total underlying value deposited in a bank, in scaled units:
`total_deposited_shares * deposit_index`. -/
def depositValue (b : Bank) : Nat := b.totalDepositedShares * b.depositIndex

/-- Total underlying value borrowed from a bank, in scaled units:
`total_borrowed_shares * borrow_index`. -/
def borrowValue (b : Bank) : Nat := b.totalBorrowedShares * b.borrowIndex

/-- Pool-solvency invariant (§3):
`total_deposited_shares * deposit_index ≥ total_borrowed_shares * borrow_index`. -/
def solvent (b : Bank) : Prop := borrowValue b ≤ depositValue b

instance (b : Bank) : Decidable (solvent b) := by
  unfold solvent; infer_instance

/-- Modelled from the spec: the bank's utilization ratio
`total_borrowed / total_deposited` in underlying value, scaled by `scale`
(0 when the pool is empty). Part of the missing Interest Accrual Model
(§4.1). -/
def utilization (b : Bank) : Nat :=
  if depositValue b = 0 then 0 else borrowValue b * scale / depositValue b

/-- Modelled from the spec: the pure index update of the Interest Accrual
Model (§4.1), missing from the snapshot. Per-second simple interest at a
rate derived from utilization (full utilization = 100% per year); the
borrow-index growth is floored, and the accrued interest is distributed to
depositors by growing the deposit index, again with floor rounding
(rounding down on index growth, favoring the pool). -/
def accruedBank (b : Bank) (now : Nat) : Bank :=
  let dt := now - b.lastUpdateTimestamp
  let newBorrowIndex :=
    b.borrowIndex + b.borrowIndex * utilization b * dt / (scale * secondsPerYear)
  let interest := b.totalBorrowedShares * (newBorrowIndex - b.borrowIndex)
  let newDepositIndex :=
    if b.totalDepositedShares = 0 then b.depositIndex
    else b.depositIndex + interest / b.totalDepositedShares
  { b with
      depositIndex := newDepositIndex
      borrowIndex := newBorrowIndex
      lastUpdateTimestamp := now }

/-- Modelled from the spec: `accrue(bank, now)` (§4.2), missing from the
snapshot — clock-skew guard (`ClockError` when `now` is earlier than the
last update), then the pure index update. -/
def accrue (b : Bank) (now : Nat) : Except LendingError Bank :=
  if now < b.lastUpdateTimestamp then .error .ClockError
  else .ok (accruedBank b now)

/-! ## Health / risk engine (§4.3) -/

/-- Modelled from the spec: the user's collateral value (§4.3), missing
from the snapshot: `deposit_shares * collateral_bank.deposit_index *
price(collateral_asset)` (scaled units). -/
def collateralValue (u : User) (collBank : Bank) (pc : Nat) : Nat :=
  u.depositShares * collBank.depositIndex * pc

/-- Modelled from the spec: the user's debt value (§4.3), missing from the
snapshot: `borrow_shares * borrow_bank.borrow_index * price(borrow_asset)`
(scaled units). -/
def debtValue (u : User) (borBank : Bank) (pb : Nat) : Nat :=
  u.borrowShares * borBank.borrowIndex * pb

/-- Modelled from the spec: the health-factor test of the Risk Engine
(§4.3), missing from the snapshot. The health factor is
`collateral_value * liquidation_threshold / debt_value` (+infinity when
the debt is zero); `healthOk` decides `health factor ≥ 1.0` by
cross-multiplication in scaled integers:
`debt = 0 ∨ debt * scale ≤ collateral * liquidation_threshold`. -/
def healthOk (u : User) (collBank borBank : Bank) (pc pb : Nat) : Bool :=
  debtValue u borBank pb == 0 ||
    decide (debtValue u borBank pb * scale
              ≤ collateralValue u collBank pc * collBank.liquidationThreshold)

/-! ## Share conversions (§4.2) -/

/-- Modelled from the spec: the `amount <= 0` guard shared by the
amount-taking operations (§4.2, §6). The argument is a `u64` in the
source dispatch layer, modelled as `Nat`. -/
def invalidAmountGuard (amount : Nat) : Bool := decide (amount ≤ 0)

/-- Modelled from the spec: deposit amount → deposit shares via the
deposit index, floor rounding (§4.2). -/
def depositSharesOf (b : Bank) (amount : Nat) : Nat :=
  amount * scale / b.depositIndex

/-- Modelled from the spec: borrow amount → borrow shares via the borrow
index, ceiling rounding, so the borrower owes at least as much as
borrowed (§4.2). -/
def borrowSharesOf (b : Bank) (amount : Nat) : Nat :=
  ceilDiv (amount * scale) b.borrowIndex

/-- Modelled from the spec: repay amount → borrow shares via the borrow
index, floor rounding, favoring the pool (§4.2). -/
def repaySharesOf (b : Bank) (amount : Nat) : Nat :=
  amount * scale / b.borrowIndex

/-- Modelled from the spec: available underlying liquidity of a bank,
`total_deposited*deposit_index - total_borrowed*borrow_index` (§4.2),
brought back to underlying units. -/
def availableLiquidity (b : Bank) : Nat :=
  (depositValue b - borrowValue b) / scale

/-! ## Instruction handlers

The `process_*` handlers live in the `instructions` module, absent from
the snapshot; each is modelled from the spec's operation contracts
(§4.2–§4.4, §6). Every handler first accrues the touched bank(s) (§2
control flow); an error return models the substrate's full rollback
(§5, §7): the caller's state is unchanged. -/

/-- Modelled from the spec: `process_init_bank` (§4.2), missing from the
snapshot. Parameter validation (`InvalidParameters` unless
`0 < max_ltv < liquidation_threshold < 1`), then the
`AlreadyInitialized` guard, then creation with both indices at `1.0`. -/
def process_init_bank (liquidateThreshold maxLtv : Nat) (bankExists : Bool)
    (now : Nat) : Except LendingError Bank :=
  if ¬ (0 < maxLtv ∧ maxLtv < scale ∧ 0 < liquidateThreshold ∧
        liquidateThreshold < scale ∧ maxLtv < liquidateThreshold) then
    .error .InvalidParameters
  else if bankExists then .error .AlreadyInitialized
  else
    .ok { totalDepositedShares := 0
          totalBorrowedShares := 0
          depositIndex := scale
          borrowIndex := scale
          lastUpdateTimestamp := now
          liquidationThreshold := liquidateThreshold
          maxLtv := maxLtv }

/-- Modelled from the spec: `process_init_user` (§6), missing from the
snapshot — creates an empty position bound to the settlement account. -/
def process_init_user (usdcAddress : Nat) (userExists : Bool) :
    Except LendingError User :=
  if userExists then .error .AlreadyInitialized
  else .ok { depositShares := 0, borrowShares := 0, usdcAddress := usdcAddress }

/-- Modelled from the spec: `process_deposit` (§4.2), missing from the
snapshot — accrue, reject `amount <= 0`, convert via the deposit index
with floor rounding, credit shares. -/
def process_deposit (b : Bank) (u : User) (now amount : Nat) :
    Except LendingError (Bank × User) :=
  match accrue b now with
  | .error e => .error e
  | .ok ba =>
    if invalidAmountGuard amount then .error .InvalidAmount
    else
      .ok ({ ba with totalDepositedShares :=
               ba.totalDepositedShares + depositSharesOf ba amount },
           { u with depositShares := u.depositShares + depositSharesOf ba amount })

/-- Modelled from the spec: `process_withdraw` (§4.2, §4.3), missing from
the snapshot — accrue both banks, reject a zero argument, reject
`InsufficientShares` when the request exceeds the caller's deposit
shares, then approve only if the hypothetical post-state passes the
health check. The argument is the caller's share count to debit (§4.2). -/
def process_withdraw (collBank borBank : Bank) (u : User)
    (now shares pc pb : Nat) : Except LendingError (Bank × User) :=
  match accrue collBank now, accrue borBank now with
  | .ok cb, .ok bb =>
    if invalidAmountGuard shares then .error .InvalidAmount
    else if u.depositShares < shares then .error .InsufficientShares
    else if healthOk { u with depositShares := u.depositShares - shares }
            { cb with totalDepositedShares := cb.totalDepositedShares - shares }
            bb pc pb then
      .ok ({ cb with totalDepositedShares := cb.totalDepositedShares - shares },
           { u with depositShares := u.depositShares - shares })
    else .error .HealthCheckFailed
  | .error e, _ => .error e
  | _, .error e => .error e

/-- Modelled from the spec: the hypothetical post-state of the borrow bank
after crediting the new debt shares (§4.2, §4.3) — the snapshot the Risk
Engine is queried on. -/
def borrowPostBank (bb : Bank) (amount : Nat) : Bank :=
  { bb with totalBorrowedShares := bb.totalBorrowedShares + borrowSharesOf bb amount }

/-- Modelled from the spec: the hypothetical post-state of the borrower
after crediting the new debt shares (§4.2, §4.3). -/
def borrowPostUser (u : User) (bb : Bank) (amount : Nat) : User :=
  { u with borrowShares := u.borrowShares + borrowSharesOf bb amount }

/-- Modelled from the spec: `process_borrow` (§4.2, §4.3), missing from
the snapshot — accrue both banks, reject a zero amount, reject
`InsufficientLiquidity` when the amount exceeds
`total_deposited*deposit_index - total_borrowed*borrow_index`, convert
via the borrow index with ceiling rounding, then approve only if the
hypothetical post-state passes the health check. -/
def process_borrow (collBank borBank : Bank) (u : User)
    (now amount pc pb : Nat) : Except LendingError (Bank × Bank × User) :=
  match accrue collBank now, accrue borBank now with
  | .ok cb, .ok bb =>
    if invalidAmountGuard amount then .error .InvalidAmount
    else if availableLiquidity bb < amount then .error .InsufficientLiquidity
    else if healthOk (borrowPostUser u bb amount) cb (borrowPostBank bb amount)
            pc pb then
      .ok (cb, borrowPostBank bb amount, borrowPostUser u bb amount)
    else .error .HealthCheckFailed
  | .error e, _ => .error e
  | _, .error e => .error e

/-- Modelled from the spec: `process_repay` (§4.2), missing from the
snapshot — accrue, reject a zero amount, convert via the borrow index
with floor rounding, and fail with `OverRepayment` when the converted
shares exceed the caller's outstanding borrow shares (the excess is
rejected, not truncated). -/
def process_repay (b : Bank) (u : User) (now amount : Nat) :
    Except LendingError (Bank × User) :=
  match accrue b now with
  | .error e => .error e
  | .ok ba =>
    if invalidAmountGuard amount then .error .InvalidAmount
    else if u.borrowShares < repaySharesOf ba amount then .error .OverRepayment
    else
      .ok ({ ba with totalBorrowedShares :=
               ba.totalBorrowedShares - repaySharesOf ba amount },
           { u with borrowShares := u.borrowShares - repaySharesOf ba amount })

/-- Modelled from the spec: the collateral shares seized by a full
liquidation (§4.4) — the target's full outstanding debt value grown by
the liquidation bonus, converted to collateral shares at the oracle
price with ceiling rounding. Determined by the target's position and the
banks' accrued state only. -/
def seizedShares (cb bb : Bank) (target : User) (pc pb bonus : Nat) : Nat :=
  ceilDiv (debtValue target bb pb * (scale + bonus) / scale)
    (cb.depositIndex * pc)

/-- Modelled from the spec: the outcome of a successful full liquidation
(§4.4) as a function of the accrued banks, the liquidator, and the target
— the target's debt shares are cleared, the seized collateral shares move
from target to liquidator, and the borrow bank is debited by the target's
full borrow shares. Result order:
`(collateral bank, borrow bank, liquidator, target)`. -/
def liquidationOutcome (cb bb : Bank) (liquidator target : User)
    (pc pb bonus : Nat) : Bank × Bank × User × User :=
  (cb,
   { bb with totalBorrowedShares :=
       bb.totalBorrowedShares - target.borrowShares },
   { liquidator with depositShares :=
       liquidator.depositShares + seizedShares cb bb target pc pb bonus },
   { target with
       depositShares :=
         (target.depositShares - seizedShares cb bb target pc pb bonus),
       borrowShares := 0 })

/-- Modelled from the spec: `process_liquidate` (§4.4), missing from the
snapshot — accrue both banks, fail with `PositionHealthy` when the
target's health factor is ≥ 1.0, compute the full-liquidation seize
amount (capped by `InsufficientCollateral`), then atomically clear the
target's debt, move the seized collateral shares to the liquidator, and
debit the borrow bank's outstanding shares. Result:
`(collateral bank, borrow bank, liquidator, target)`. -/
def process_liquidate (collBank borBank : Bank) (liquidator target : User)
    (now pc pb bonus : Nat) :
    Except LendingError (Bank × Bank × User × User) :=
  match accrue collBank now, accrue borBank now with
  | .ok cb, .ok bb =>
    if healthOk target cb bb pc pb then .error .PositionHealthy
    else if target.depositShares < seizedShares cb bb target pc pb bonus then
      .error .InsufficientCollateral
    else
      .ok (cb,
           { bb with totalBorrowedShares :=
               bb.totalBorrowedShares - target.borrowShares },
           { liquidator with depositShares :=
               liquidator.depositShares + seizedShares cb bb target pc pb bonus },
           { target with
               depositShares :=
                 (target.depositShares - seizedShares cb bb target pc pb bonus),
               borrowShares := 0 })
  | .error e, _ => .error e
  | _, .error e => .error e

/-! ## Public dispatch layer

Translated from the source (`src/anchor/programs/lending/src/lib.rs`,
`pub mod lending`): each public instruction forwards its arguments to the
corresponding `process_*` handler, with no check, transformation, or state
change of its own. The accounts reachable through the Anchor `Context`
become explicit state arguments. -/

namespace lending

/-- `pub fn init_bank(ctx, liquidate_threshold: u64, max_ltv: u64)`
(lib.rs:18-20): forwards to `process_init_bank`. -/
def init_bank (liquidateThreshold maxLtv : Nat) (bankExists : Bool)
    (now : Nat) : Except LendingError Bank :=
  process_init_bank liquidateThreshold maxLtv bankExists now

/-- `pub fn init_user(ctx, usdc_address: Pubkey)` (lib.rs:22-24):
forwards to `process_init_user`. -/
def init_user (usdcAddress : Nat) (userExists : Bool) :
    Except LendingError User :=
  process_init_user usdcAddress userExists

/-- `pub fn deposit(ctx, amount: u64)` (lib.rs:26-28): forwards to
`process_deposit`. -/
def deposit (b : Bank) (u : User) (now amount : Nat) :
    Except LendingError (Bank × User) :=
  process_deposit b u now amount

/-- `pub fn withdraw(ctx, amount: u64)` (lib.rs:30-32): forwards to
`process_withdraw`. -/
def withdraw (collBank borBank : Bank) (u : User) (now shares pc pb : Nat) :
    Except LendingError (Bank × User) :=
  process_withdraw collBank borBank u now shares pc pb

/-- `pub fn borrow(ctx, amount: u64)` (lib.rs:34-36): forwards to
`process_borrow`. -/
def borrow (collBank borBank : Bank) (u : User) (now amount pc pb : Nat) :
    Except LendingError (Bank × Bank × User) :=
  process_borrow collBank borBank u now amount pc pb

/-- `pub fn repay(ctx, amount: u64)` (lib.rs:38-40): forwards to
`process_repay`. -/
def repay (b : Bank) (u : User) (now amount : Nat) :
    Except LendingError (Bank × User) :=
  process_repay b u now amount

/-- `pub fn liquidate(ctx)` (lib.rs:42-44): forwards to
`process_liquidate`; note the absence of any amount argument. -/
def liquidate (collBank borBank : Bank) (liquidator target : User)
    (now pc pb bonus : Nat) : Except LendingError (Bank × Bank × User × User) :=
  process_liquidate collBank borBank liquidator target now pc pb bonus

end lending

/-! ## Helper lemmas -/

theorem accrue_ok {b : Bank} {now : Nat} (h : b.lastUpdateTimestamp ≤ now) :
    accrue b now = .ok (accruedBank b now) := by
  simp [accrue, Nat.not_lt.mpr h]

theorem accrue_ok_inv {b ba : Bank} {now : Nat} (h : accrue b now = .ok ba) :
    ba = accruedBank b now ∧ b.lastUpdateTimestamp ≤ now := by
  unfold accrue at h
  split at h
  · exact absurd h (by simp)
  · rename_i hlt
    injection h with h
    exact ⟨h.symm, Nat.not_lt.mp hlt⟩

/-- Accruing a bank at its own last-update timestamp changes nothing. -/
theorem accruedBank_self (b : Bank) : accruedBank b b.lastUpdateTimestamp = b := by
  cases b
  simp [accruedBank]

/-- The accrued bank records the accrual time. -/
theorem accruedBank_timestamp (b : Bank) (now : Nat) :
    (accruedBank b now).lastUpdateTimestamp = now := rfl

/-- Ceiling division recovers at least the dividend: `a ≤ ⌈a/b⌉ * b`. -/
theorem ceilDiv_mul_ge (a b : Nat) (hb : 0 < b) : a ≤ ceilDiv a b * b := by
  have key := Nat.div_add_mod (a + b - 1) b
  have hm : (a + b - 1) % b < b := Nat.mod_lt _ hb
  have : ceilDiv a b * b = b * ((a + b - 1) / b) := by
    unfold ceilDiv; exact Nat.mul_comm _ _
  rw [this]
  omega

/-! ## Claim theorems -/

/-- C5: accrual is idempotent — for every bank state and timestamp `t`,
if accruing at `t` yields a bank state, accruing that state again at the
same `t` returns it unchanged; in particular the second call yields the
same `deposit_index` and `borrow_index` as the first. -/
theorem accrue_idempotent (b : Bank) (now : Nat) (b2 : Bank)
    (h : accrue b now = .ok b2) : accrue b2 now = .ok b2 := by
  obtain ⟨rfl, hle⟩ := accrue_ok_inv h
  have ht : (accruedBank b now).lastUpdateTimestamp = now := accruedBank_timestamp b now
  rw [accrue_ok (le_of_eq ht)]
  have hself := accruedBank_self (accruedBank b now)
  rw [ht] at hself
  rw [hself]

/-- C5 witness: a concrete bank accrued at time 5, then accrued again at
time 5, is returned unchanged. -/
theorem accrue_idempotent_witness :
    accrue (⟨10, 5, 10000, 10000, 0, 8000, 5000⟩ : Bank) 5
        = .ok (⟨10, 5, 10000, 10000, 5, 8000, 5000⟩ : Bank)
    ∧ accrue (⟨10, 5, 10000, 10000, 5, 8000, 5000⟩ : Bank) 5
        = .ok (⟨10, 5, 10000, 10000, 5, 8000, 5000⟩ : Bank) :=
  ⟨by decide,
   accrue_idempotent ⟨10, 5, 10000, 10000, 0, 8000, 5000⟩ 5
     ⟨10, 5, 10000, 10000, 5, 8000, 5000⟩ (by decide)⟩

/-- C8: every public entry point of the dispatch layer (`pub mod lending`
in lib.rs) is observationally equal to its `process_*` handler on all
arguments — the dispatch performs no checks, argument transformations, or
state changes of its own. -/
theorem dispatch_refines_handlers :
    (∀ thr ltv ex now, lending.init_bank thr ltv ex now
        = process_init_bank thr ltv ex now)
    ∧ (∀ addr ex, lending.init_user addr ex = process_init_user addr ex)
    ∧ (∀ b u now amount, lending.deposit b u now amount
        = process_deposit b u now amount)
    ∧ (∀ cb bb u now s pc pb, lending.withdraw cb bb u now s pc pb
        = process_withdraw cb bb u now s pc pb)
    ∧ (∀ cb bb u now a pc pb, lending.borrow cb bb u now a pc pb
        = process_borrow cb bb u now a pc pb)
    ∧ (∀ b u now a, lending.repay b u now a = process_repay b u now a)
    ∧ (∀ cb bb l t now pc pb bo, lending.liquidate cb bb l t now pc pb bo
        = process_liquidate cb bb l t now pc pb bo) :=
  ⟨fun _ _ _ _ => rfl, fun _ _ => rfl, fun _ _ _ _ => rfl,
   fun _ _ _ _ _ _ _ => rfl, fun _ _ _ _ _ _ _ => rfl, fun _ _ _ _ => rfl,
   fun _ _ _ _ _ _ _ _ => rfl⟩

/-- C9: the `amount` argument of the amount-taking public operations is a
`u64` (embedded as `Nat`), so the spec's `amount <= 0` guard can only ever
fire at `amount = 0`; under a valid clock, each of deposit, withdraw,
borrow, and repay rejects exactly that amount with `InvalidAmount`. -/
theorem amount_guard_only_zero (amount : Nat) :
    (invalidAmountGuard amount = true ↔ amount = 0)
    ∧ ∀ (b cb bb : Bank) (u : User) (now pc pb : Nat),
        b.lastUpdateTimestamp ≤ now → cb.lastUpdateTimestamp ≤ now →
        bb.lastUpdateTimestamp ≤ now → amount = 0 →
        process_deposit b u now amount = .error .InvalidAmount
        ∧ process_withdraw cb bb u now amount pc pb = .error .InvalidAmount
        ∧ process_borrow cb bb u now amount pc pb = .error .InvalidAmount
        ∧ process_repay b u now amount = .error .InvalidAmount := by
  constructor
  · simp [invalidAmountGuard, Nat.le_zero]
  · intro b cb bb u now pc pb hb hcb hbb hz
    subst hz
    refine ⟨?_, ?_, ?_, ?_⟩
    · simp [process_deposit, accrue_ok hb, invalidAmountGuard]
    · simp [process_withdraw, accrue_ok hcb, accrue_ok hbb, invalidAmountGuard]
    · simp [process_borrow, accrue_ok hcb, accrue_ok hbb, invalidAmountGuard]
    · simp [process_repay, accrue_ok hb, invalidAmountGuard]

/-- C9 witness: at `amount = 0` the guard fires and a concrete deposit is
rejected with `InvalidAmount`. -/
theorem amount_guard_only_zero_witness :
    (invalidAmountGuard 0 = true ↔ (0 : Nat) = 0)
    ∧ process_deposit ⟨10, 5, 10000, 10000, 0, 8000, 5000⟩ ⟨0, 0, 0⟩ 3 0
        = .error .InvalidAmount :=
  ⟨(amount_guard_only_zero 0).1,
   (((amount_guard_only_zero 0).2 ⟨10, 5, 10000, 10000, 0, 8000, 5000⟩
      ⟨10, 5, 10000, 10000, 0, 8000, 5000⟩ ⟨10, 5, 10000, 10000, 0, 8000, 5000⟩
      ⟨0, 0, 0⟩ 3 1 1 (by decide) (by decide) (by decide) rfl).1)⟩

/-- C6: `init_bank` rejects with `InvalidParameters` whenever
`max_ltv ≥ liquidation_threshold` or either parameter lies outside the
open interval `(0, 1)` (scaled: `(0, scale)`); with valid parameters it
rejects an existing bank with `AlreadyInitialized`, and otherwise creates
the bank with both indices equal to `1.0` (= `scale`). -/
theorem init_bank_param_validation (thr ltv : Nat) (ex : Bool) (now : Nat) :
    ((thr ≤ ltv ∨ ltv = 0 ∨ scale ≤ ltv ∨ thr = 0 ∨ scale ≤ thr) →
        process_init_bank thr ltv ex now = .error .InvalidParameters)
    ∧ (0 < ltv → ltv < scale → 0 < thr → thr < scale → ltv < thr →
        (ex = true →
            process_init_bank thr ltv ex now = .error .AlreadyInitialized)
        ∧ (ex = false → ∃ b2, process_init_bank thr ltv ex now = .ok b2
            ∧ b2.depositIndex = scale ∧ b2.borrowIndex = scale)) := by
  constructor
  · intro hbad
    have hg : ¬ (0 < ltv ∧ ltv < scale ∧ 0 < thr ∧ thr < scale ∧ ltv < thr) := by
      omega
    simp [process_init_bank, hg]
  · intro h1 h2 h3 h4 h5
    have hg : ¬ ¬ (0 < ltv ∧ ltv < scale ∧ 0 < thr ∧ thr < scale ∧ ltv < thr) :=
      not_not_intro ⟨h1, h2, h3, h4, h5⟩
    constructor
    · intro hex
      subst hex
      simp [process_init_bank, hg]
    · intro hex
      subst hex
      refine ⟨{ totalDepositedShares := 0, totalBorrowedShares := 0,
                depositIndex := scale, borrowIndex := scale,
                lastUpdateTimestamp := now, liquidationThreshold := thr,
                maxLtv := ltv }, ?_, rfl, rfl⟩
      simp [process_init_bank, hg]

/-- C6 witness: concrete runs of each branch — swapped parameters are
rejected, an existing bank is rejected, and fresh valid parameters create
a bank whose indices are `1.0`. -/
theorem init_bank_param_validation_witness :
    process_init_bank 5000 8000 false 0 = .error .InvalidParameters
    ∧ process_init_bank 8000 5000 true 0 = .error .AlreadyInitialized
    ∧ ∃ b2, process_init_bank 8000 5000 false 0 = .ok b2
        ∧ b2.depositIndex = scale ∧ b2.borrowIndex = scale :=
  ⟨(init_bank_param_validation 5000 8000 false 0).1 (Or.inl (by decide)),
   ((init_bank_param_validation 8000 5000 true 0).2 (by decide) (by decide)
      (by decide) (by decide) (by decide)).1 rfl,
   ((init_bank_param_validation 8000 5000 false 0).2 (by decide) (by decide)
      (by decide) (by decide) (by decide)).2 rfl⟩

/-- C4: when the repay amount, converted to borrow shares via the borrow
index (floor rounding) on the accrued bank, exceeds the user's
outstanding `borrow_shares`, repay fails with `OverRepayment`; the error
result carries no post-state, so the user's and bank's state are
unchanged and the excess is never silently truncated to the debt. -/
theorem repay_rejects_over_repayment (b : Bank) (u : User) (now amount : Nat)
    (hnow : b.lastUpdateTimestamp ≤ now) (hamt : amount ≠ 0)
    (hover : u.borrowShares < repaySharesOf (accruedBank b now) amount) :
    process_repay b u now amount = .error .OverRepayment ∧
      ∀ s, process_repay b u now amount ≠ .ok s := by
  have hguard : invalidAmountGuard amount = false := by
    simp [invalidAmountGuard, hamt]
  have hmain : process_repay b u now amount = .error .OverRepayment := by
    simp [process_repay, accrue_ok hnow, hguard, hover]
  exact ⟨hmain, fun s hs => by rw [hmain] at hs; exact absurd hs (by simp)⟩

/-- C4 witness: a user owing 50 borrow shares attempts to repay 60 units
(60 shares at index 1.0) and is rejected with `OverRepayment`. -/
theorem repay_rejects_over_repayment_witness :
    process_repay (⟨1000, 100, 10000, 10000, 0, 8000, 5000⟩ : Bank)
        (⟨0, 50, 0⟩ : User) 0 60 = .error .OverRepayment :=
  (repay_rejects_over_repayment ⟨1000, 100, 10000, 10000, 0, 8000, 5000⟩
      ⟨0, 50, 0⟩ 0 60 (by decide) (by decide) (by decide)).1

/-- C1: borrow succeeds only if the health factor of the hypothetical
post-state (the new debt shares included) is at least `1.0`; and whenever
that post-state health factor is below `1.0` (the other guards passing),
borrow fails with `HealthCheckFailed` — the error result carries no
post-state, so the user's and bank's state are unchanged. -/
theorem borrow_health_gate (collBank borBank : Bank) (u : User)
    (now amount pc pb : Nat) :
    (∀ cb2 bb2 u2,
        process_borrow collBank borBank u now amount pc pb = .ok (cb2, bb2, u2) →
        healthOk u2 cb2 bb2 pc pb = true)
    ∧ (collBank.lastUpdateTimestamp ≤ now → borBank.lastUpdateTimestamp ≤ now →
        amount ≠ 0 →
        amount ≤ availableLiquidity (accruedBank borBank now) →
        healthOk (borrowPostUser u (accruedBank borBank now) amount)
            (accruedBank collBank now)
            (borrowPostBank (accruedBank borBank now) amount) pc pb = false →
        process_borrow collBank borBank u now amount pc pb
          = .error .HealthCheckFailed) := by
  constructor
  · intro cb2 bb2 u2 hok
    unfold process_borrow at hok
    split at hok
    · split at hok
      · exact absurd hok (by simp)
      · split at hok
        · exact absurd hok (by simp)
        · split at hok
          · rename_i hhealth
            rw [Except.ok.injEq, Prod.mk.injEq, Prod.mk.injEq] at hok
            obtain ⟨rfl, rfl, rfl⟩ := hok
            exact hhealth
          · exact absurd hok (by simp)
    · exact absurd hok (by simp)
    · exact absurd hok (by simp)
  · intro hc hb hamt hliq hhealth
    have hguard : invalidAmountGuard amount = false := by
      simp [invalidAmountGuard, hamt]
    simp [process_borrow, accrue_ok hc, accrue_ok hb, hguard,
          Nat.not_lt.mpr hliq, hhealth]

/-- C1 witness: a user with 10 collateral shares asks to borrow 100 units
(post-state health factor below 1.0 while liquidity suffices) and is
rejected with `HealthCheckFailed`. -/
theorem borrow_health_gate_witness :
    healthOk (borrowPostUser ⟨10, 0, 0⟩
        (accruedBank ⟨1000, 0, 10000, 10000, 0, 8000, 5000⟩ 0) 100)
        (accruedBank ⟨1000, 0, 10000, 10000, 0, 8000, 5000⟩ 0)
        (borrowPostBank (accruedBank ⟨1000, 0, 10000, 10000, 0, 8000, 5000⟩ 0) 100)
        1 1 = false
    ∧ process_borrow ⟨1000, 0, 10000, 10000, 0, 8000, 5000⟩
        ⟨1000, 0, 10000, 10000, 0, 8000, 5000⟩ ⟨10, 0, 0⟩ 0 100 1 1
        = .error .HealthCheckFailed :=
  ⟨by decide,
   (borrow_health_gate ⟨1000, 0, 10000, 10000, 0, 8000, 5000⟩
      ⟨1000, 0, 10000, 10000, 0, 8000, 5000⟩ ⟨10, 0, 0⟩ 0 100 1 1).2
     (by decide) (by decide) (by decide) (by decide) (by decide)⟩

/-- C7: borrow fails with `InsufficientLiquidity` when the amount exceeds
the available liquidity `total_deposited*deposit_index -
total_borrowed*borrow_index` of the accrued bank; and on success the debt
recorded (the newly credited borrow shares times the borrow index, in
scaled units) is at least the amount borrowed, because the conversion
rounds up. -/
theorem borrow_liquidity_and_ceiling (collBank borBank : Bank) (u : User)
    (now amount pc pb : Nat)
    (hc : collBank.lastUpdateTimestamp ≤ now)
    (hb : borBank.lastUpdateTimestamp ≤ now)
    (hamt : amount ≠ 0) (hidx : 0 < borBank.borrowIndex) :
    (availableLiquidity (accruedBank borBank now) < amount →
        process_borrow collBank borBank u now amount pc pb
          = .error .InsufficientLiquidity)
    ∧ (∀ cb2 bb2 u2,
        process_borrow collBank borBank u now amount pc pb = .ok (cb2, bb2, u2) →
        amount * scale ≤ (u2.borrowShares - u.borrowShares) * bb2.borrowIndex) := by
  have hguard : invalidAmountGuard amount = false := by
    simp [invalidAmountGuard, hamt]
  constructor
  · intro hliq
    simp [process_borrow, accrue_ok hc, accrue_ok hb, hguard, hliq]
  · intro cb2 bb2 u2 hok
    rw [process_borrow, accrue_ok hc, accrue_ok hb] at hok
    simp only [hguard, Bool.false_eq_true, if_false] at hok
    split at hok
    · exact absurd hok (by simp)
    · split at hok
      · rw [Except.ok.injEq, Prod.mk.injEq, Prod.mk.injEq] at hok
        obtain ⟨rfl, rfl, rfl⟩ := hok
        have hidx2 : 0 < (accruedBank borBank now).borrowIndex :=
          Nat.lt_of_lt_of_le hidx (Nat.le_add_right _ _)
        show amount * scale ≤
          (u.borrowShares + borrowSharesOf (accruedBank borBank now) amount
            - u.borrowShares) * (accruedBank borBank now).borrowIndex
        rw [Nat.add_sub_cancel_left]
        exact ceilDiv_mul_ge (amount * scale) _ hidx2
      · exact absurd hok (by simp)

/-- C7 witness: with one unit of available liquidity, a two-unit borrow is
rejected with `InsufficientLiquidity`, and a successful one-unit borrow
records debt shares worth at least the borrowed amount. -/
theorem borrow_liquidity_and_ceiling_witness :
    process_borrow (⟨1000, 0, 10000, 10000, 0, 8000, 5000⟩ : Bank)
        (⟨1, 0, 10000, 10000, 0, 8000, 5000⟩ : Bank) ⟨1000, 0, 0⟩ 0 2 1 1
        = .error .InsufficientLiquidity
    ∧ 1 * scale ≤ ((⟨1000, 1, 0⟩ : User).borrowShares - (⟨1000, 0, 0⟩ : User).borrowShares)
        * (⟨1, 1, 10000, 10000, 0, 8000, 5000⟩ : Bank).borrowIndex :=
  ⟨(borrow_liquidity_and_ceiling ⟨1000, 0, 10000, 10000, 0, 8000, 5000⟩
      ⟨1, 0, 10000, 10000, 0, 8000, 5000⟩ ⟨1000, 0, 0⟩ 0 2 1 1
      (by decide) (by decide) (by decide) (by decide)).1 (by decide),
   (borrow_liquidity_and_ceiling ⟨1000, 0, 10000, 10000, 0, 8000, 5000⟩
      ⟨1, 0, 10000, 10000, 0, 8000, 5000⟩ ⟨1000, 0, 0⟩ 0 1 1 1
      (by decide) (by decide) (by decide) (by decide)).2
     ⟨1000, 0, 10000, 10000, 0, 8000, 5000⟩
     ⟨1, 1, 10000, 10000, 0, 8000, 5000⟩ ⟨1000, 1, 0⟩ (by decide)⟩

/-- C2: liquidation fails with `PositionHealthy` when the target's
health factor at the time of the call (on the accrued banks) is at least
`1.0`; and whenever liquidation succeeds, the target's `borrow_shares`
are zero afterward — the full debt is cleared. -/
theorem liquidate_health_gate (collBank borBank : Bank)
    (liquidator target : User) (now pc pb bonus : Nat)
    (hc : collBank.lastUpdateTimestamp ≤ now)
    (hb : borBank.lastUpdateTimestamp ≤ now) :
    (healthOk target (accruedBank collBank now) (accruedBank borBank now)
        pc pb = true →
      process_liquidate collBank borBank liquidator target now pc pb bonus
        = .error .PositionHealthy)
    ∧ (∀ r, process_liquidate collBank borBank liquidator target now pc pb bonus
          = .ok r → r.2.2.2.borrowShares = 0) := by
  constructor
  · intro hh
    simp [process_liquidate, accrue_ok hc, accrue_ok hb, hh]
  · intro r hok
    unfold process_liquidate at hok
    split at hok
    · split at hok
      · exact absurd hok (by simp)
      · split at hok
        · exact absurd hok (by simp)
        · rw [Except.ok.injEq] at hok
          rw [← hok]
    · exact absurd hok (by simp)
    · exact absurd hok (by simp)

/-- C2 witness: a healthy target (health factor ≥ 1.0) is rejected with
`PositionHealthy`, and a concrete successful liquidation leaves the
target with zero borrow shares. -/
theorem liquidate_health_gate_witness :
    process_liquidate (⟨1000, 0, 10000, 10000, 0, 8000, 5000⟩ : Bank)
        (⟨1000, 900, 10000, 10000, 0, 8000, 5000⟩ : Bank)
        (⟨0, 0, 7⟩ : User) (⟨1000, 100, 0⟩ : User) 0 1 1 1000
        = .error .PositionHealthy
    ∧ (⟨10, 0, 0⟩ : User).borrowShares = 0 :=
  ⟨(liquidate_health_gate ⟨1000, 0, 10000, 10000, 0, 8000, 5000⟩
      ⟨1000, 900, 10000, 10000, 0, 8000, 5000⟩ ⟨0, 0, 7⟩ ⟨1000, 100, 0⟩
      0 1 1 1000 (by decide) (by decide)).1 (by decide),
   (liquidate_health_gate ⟨1000, 0, 10000, 10000, 0, 8000, 5000⟩
      ⟨1000, 900, 10000, 10000, 0, 8000, 5000⟩ ⟨0, 0, 7⟩ ⟨1000, 900, 0⟩
      0 1 1 1000 (by decide) (by decide)).2
     (⟨1000, 0, 10000, 10000, 0, 8000, 5000⟩,
      ⟨1000, 0, 10000, 10000, 0, 8000, 5000⟩, ⟨990, 0, 7⟩, ⟨10, 0, 0⟩)
     (by decide)⟩

/-- C10: the public liquidate operation takes no amount argument, so a
successful liquidation's outcome is determined entirely by the target's
position and the banks' (accrued) state: the collateral bank is the
accrued bank, the borrow bank is debited by the target's full borrow
shares, and the seized collateral shares are the function `seizedShares`
of the target and bank state — the liquidator's own position only
receives that amount; partial liquidation cannot be requested. -/
theorem liquidate_outcome_determined (collBank borBank : Bank)
    (liquidator target : User) (now pc pb bonus : Nat)
    (hc : collBank.lastUpdateTimestamp ≤ now)
    (hb : borBank.lastUpdateTimestamp ≤ now)
    (hh : healthOk target (accruedBank collBank now) (accruedBank borBank now)
        pc pb = false)
    (hcol : seizedShares (accruedBank collBank now) (accruedBank borBank now)
        target pc pb bonus ≤ target.depositShares) :
    process_liquidate collBank borBank liquidator target now pc pb bonus
      = .ok (liquidationOutcome (accruedBank collBank now)
          (accruedBank borBank now) liquidator target pc pb bonus) := by
  simp [process_liquidate, accrue_ok hc, accrue_ok hb, hh, Nat.not_lt.mpr hcol,
        liquidationOutcome]

/-- C10 witness: a concrete successful liquidation; its entire outcome
(seized shares 990, debt cleared) is the stated function of the target's
and banks' state alone. -/
theorem liquidate_outcome_determined_witness :
    process_liquidate (⟨1000, 0, 10000, 10000, 0, 8000, 5000⟩ : Bank)
        (⟨1000, 900, 10000, 10000, 0, 8000, 5000⟩ : Bank)
        (⟨0, 0, 7⟩ : User) (⟨1000, 900, 0⟩ : User) 0 1 1 1000
      = .ok (liquidationOutcome
          (accruedBank ⟨1000, 0, 10000, 10000, 0, 8000, 5000⟩ 0)
          (accruedBank ⟨1000, 900, 10000, 10000, 0, 8000, 5000⟩ 0)
          ⟨0, 0, 7⟩ ⟨1000, 900, 0⟩ 1 1 1000) :=
  liquidate_outcome_determined ⟨1000, 0, 10000, 10000, 0, 8000, 5000⟩
    ⟨1000, 900, 10000, 10000, 0, 8000, 5000⟩ ⟨0, 0, 7⟩ ⟨1000, 900, 0⟩
    0 1 1 1000 (by decide) (by decide) (by decide) (by decide)

/-- C3 counterexample: the pool-solvency invariant
`total_deposited_shares * deposit_index ≥ total_borrowed_shares *
borrow_index` is not preserved by every public operation.
(1) A withdraw reachable from a fresh bank breaks it: starting from
`init_bank`, a depositor credits 100 shares, a borrower (collateralized in
another bank) takes 50, and the depositor then withdraws their full 100
shares — the operation succeeds (the depositor has no debt, so the health
check passes) and leaves the bank with 0 deposited but 50 borrowed shares.
(2) A borrow of the entire available liquidity overshoots the invariant
through its ceiling share rounding. (3) Accrual at full utilization
breaks it through the floor rounding of the deposit-index growth. -/
theorem solvency_invariant_counterexample :
    (process_init_bank 8000 5000 false 0
        = .ok ⟨0, 0, 10000, 10000, 0, 8000, 5000⟩
      ∧ process_deposit ⟨0, 0, 10000, 10000, 0, 8000, 5000⟩ ⟨0, 0, 0⟩ 0 100
        = .ok (⟨100, 0, 10000, 10000, 0, 8000, 5000⟩, ⟨100, 0, 0⟩)
      ∧ process_borrow ⟨10000, 0, 10000, 10000, 0, 8000, 5000⟩
          ⟨100, 0, 10000, 10000, 0, 8000, 5000⟩ ⟨1000, 0, 1⟩ 0 50 1 1
        = .ok (⟨10000, 0, 10000, 10000, 0, 8000, 5000⟩,
               ⟨100, 50, 10000, 10000, 0, 8000, 5000⟩, ⟨1000, 50, 1⟩)
      ∧ solvent (⟨100, 50, 10000, 10000, 0, 8000, 5000⟩ : Bank)
      ∧ process_withdraw ⟨100, 50, 10000, 10000, 0, 8000, 5000⟩
          ⟨100, 50, 10000, 10000, 0, 8000, 5000⟩ ⟨100, 0, 0⟩ 0 100 1 1
        = .ok (⟨0, 50, 10000, 10000, 0, 8000, 5000⟩, ⟨0, 0, 0⟩)
      ∧ ¬ solvent (⟨0, 50, 10000, 10000, 0, 8000, 5000⟩ : Bank))
    ∧ (solvent (⟨2, 0, 10000, 10001, 0, 8000, 5000⟩ : Bank)
      ∧ process_borrow ⟨1000000, 0, 10000, 10000, 0, 8000, 5000⟩
          ⟨2, 0, 10000, 10001, 0, 8000, 5000⟩ ⟨1000000, 0, 0⟩ 0 2 1 1
        = .ok (⟨1000000, 0, 10000, 10000, 0, 8000, 5000⟩,
               ⟨2, 2, 10000, 10001, 0, 8000, 5000⟩, ⟨1000000, 2, 0⟩)
      ∧ ¬ solvent (⟨2, 2, 10000, 10001, 0, 8000, 5000⟩ : Bank))
    ∧ (solvent (⟨3, 2, 10000, 15000, 0, 8000, 5000⟩ : Bank)
      ∧ accrue ⟨3, 2, 10000, 15000, 0, 8000, 5000⟩ 2103
        = .ok ⟨3, 2, 10000, 15001, 2103, 8000, 5000⟩
      ∧ ¬ solvent (⟨3, 2, 10000, 15001, 2103, 8000, 5000⟩ : Bank)) := by
  decide

/-- C3 (amended): the pool-solvency invariant is preserved by deposit,
repay, and liquidate — whenever it holds on the accrued bank state, it
holds on every bank state these operations return (and any failing
operation returns no state at all). It is not preserved by withdraw, nor
at the exact boundary by borrow's ceiling rounding or by accrual's
floor-rounded deposit-index growth. -/
theorem solvency_preserved_deposit_repay_liquidate :
    (∀ (b : Bank) (u : User) (now amount : Nat) (b2 : Bank) (u2 : User),
        solvent (accruedBank b now) →
        process_deposit b u now amount = .ok (b2, u2) → solvent b2)
    ∧ (∀ (b : Bank) (u : User) (now amount : Nat) (b2 : Bank) (u2 : User),
        solvent (accruedBank b now) →
        process_repay b u now amount = .ok (b2, u2) → solvent b2)
    ∧ (∀ (cb bb : Bank) (l t : User) (now pc pb bonus : Nat)
        (r : Bank × Bank × User × User),
        solvent (accruedBank cb now) → solvent (accruedBank bb now) →
        process_liquidate cb bb l t now pc pb bonus = .ok r →
        solvent r.1 ∧ solvent r.2.1) := by
  refine ⟨?_, ?_, ?_⟩
  · intro b u now amount b2 u2 hsolv hok
    unfold process_deposit at hok
    split at hok
    · exact absurd hok (by simp)
    · rename_i ba heq
      obtain ⟨rfl, hle⟩ := accrue_ok_inv heq
      split at hok
      · exact absurd hok (by simp)
      · rw [Except.ok.injEq, Prod.mk.injEq] at hok
        obtain ⟨rfl, rfl⟩ := hok
        simp only [solvent, borrowValue, depositValue] at hsolv ⊢
        exact Nat.le_trans hsolv
          (Nat.mul_le_mul_right _ (Nat.le_add_right _ _))
  · intro b u now amount b2 u2 hsolv hok
    unfold process_repay at hok
    split at hok
    · exact absurd hok (by simp)
    · rename_i ba heq
      obtain ⟨rfl, hle⟩ := accrue_ok_inv heq
      split at hok
      · exact absurd hok (by simp)
      · split at hok
        · exact absurd hok (by simp)
        · rw [Except.ok.injEq, Prod.mk.injEq] at hok
          obtain ⟨rfl, rfl⟩ := hok
          simp only [solvent, borrowValue, depositValue] at hsolv ⊢
          exact Nat.le_trans
            (Nat.mul_le_mul_right _ (Nat.sub_le _ _)) hsolv
  · intro cb bb l t now pc pb bonus r hc hb hok
    unfold process_liquidate at hok
    split at hok
    · rename_i cbA bbA heqc heqb
      obtain ⟨rfl, hlec⟩ := accrue_ok_inv heqc
      obtain ⟨rfl, hleb⟩ := accrue_ok_inv heqb
      split at hok
      · exact absurd hok (by simp)
      · split at hok
        · exact absurd hok (by simp)
        · rw [Except.ok.injEq] at hok
          rw [← hok]
          refine ⟨hc, ?_⟩
          simp only [solvent, borrowValue, depositValue] at hb ⊢
          exact Nat.le_trans
            (Nat.mul_le_mul_right _ (Nat.sub_le _ _)) hb
    · exact absurd hok (by simp)
    · exact absurd hok (by simp)

/-- C3 (amended) witness: a concrete deposit into a bank carrying debt
keeps the pool solvent. -/
theorem solvency_preserved_witness :
    solvent (⟨200, 50, 10000, 10000, 0, 8000, 5000⟩ : Bank) :=
  solvency_preserved_deposit_repay_liquidate.1
    ⟨100, 50, 10000, 10000, 0, 8000, 5000⟩ ⟨0, 0, 0⟩ 0 100
    ⟨200, 50, 10000, 10000, 0, 8000, 5000⟩ ⟨100, 0, 0⟩
    (by decide) (by decide)

end Lending
